import Mathlib

/-!
Verification development for the ripple-id resolver (src/id_api.py).

The outbound HTTP interactions are modelled by oracle environments: each
request is represented by the response the server would give. A value of
type `Except Unit r` models a call that can raise (a `RequestException`
or a JSON parse error): `Except.error ()` is a raised exception and
`Except.ok` a returned response. In the verification fetch loop of
`get_domain`, a candidate URL whose fetch raises a caught
`RequestException` is modelled as `none`.

A resolver outcome mirrors the Python return values: `Except.error ()`
is an uncaught exception escaping the resolver, `Except.ok none` is the
Python `None` (the transient Unknown outcome), and `Except.ok (some v)`
is a definitive value (a string or a tuple of strings).
-/

namespace RippleId

/-- Cache values retrieved from sources for this many seconds. -/
def CACHE_TIMEOUT : Nat := 3600 * 12

/-- Some well-known addresses. -/
def ADDRESS_DB : List (String × String) :=
  [ ("rfYv1TXnwgDDK4WQNbFALykYuEBnrR4pDX", "Dividend Rippler"),
    ("rNPRNzBB92BVpAhhZr4iXDTveCgV5Pofm9", "Ripple Israel"),
    ("r3ADD8kXSUKHd6zTCKfnKT3zV9EZHjzp1S", "Ripple Union"),
    ("rvYAfWj5gh67oV6fW32ZzP3Aw4Eubs59B", "Bitstamp"),
    ("razqQKzJRdB4UxFPWf5NEpEG3WMkmwgcXA", "RippleChina"),
    ("rnuF96W4SZoCJmbHYBFoJZpR8eCaxNvekK", "RippleCN"),
    ("rJHygWcTLVpSXkowott6kzgZU6viQSVYM1", "Justcoin"),
    ("rGDWKWni6exeneJdNbEZ3nVX3Rrw5VG1p1", "Goodwill LETS"),
    ("rMwjYedjc7qqtKYVLiAccJSmCwih4LnE2q", "SnapSwap"),
    ("ra9eZxMbJrUcgV8ui7aPc161FgrqWScQxV", "Peercover") ]

/-- Dictionary lookup over an association list: the first binding wins. -/
def mapGet : List (String × String) → String → Option String
  | [], _ => none
  | (k, v) :: rest, q => if k = q then some v else mapGet rest q

/-- Dictionary write: the new binding shadows any older one. -/
def mapSet (m : List (String × String)) (k v : String) : List (String × String) :=
  (k, v) :: m

/-- Apply a list of key/value writes in order (later writes win). -/
def applyWrites (m : List (String × String)) (ws : List (String × String)) :
    List (String × String) :=
  ws.foldl (fun acc p => mapSet acc p.1 p.2) m

/-- Body of the ripple-rest account-settings JSON response: the success
flag and the optional domain string under settings. -/
structure SettingsBody where
  success : Bool
  domain : Option String

/-- Account-settings HTTP response: a status code and the result of
parsing the JSON body (which can raise on a malformed body). -/
structure SettingsResponse where
  status : Nat
  body : Except Unit SettingsBody

/-- Parsed ripple.txt verification document together with the HTTP
status of the fetch that produced it: the accounts section and the
optional x-name entry. -/
structure VerifResponse where
  status : Nat
  accounts : List String
  xname : Option String
deriving DecidableEq

/-- Oracle environment for one `get_domain` call: the outcome of the
account-settings request (which can raise), and the outcomes of
fetching each candidate ripple.txt URL, in order; `none` models a
`RequestException` caught by the fetch loop. -/
structure DomainEnv where
  settings : Except Unit SettingsResponse
  candidates : List (Option VerifResponse)

/-- Outcome of the ripple.txt candidate loop: either the loop broke out
with a 200 response, or it exhausted every candidate and carries the
final value of the possible_temp_error flag. -/
inductive VerifLoopResult
  | found (r : VerifResponse)
  | exhausted (pte : Bool)
deriving DecidableEq

/-- Candidate loop of `get_domain`: a raised `RequestException` (`none`)
continues with the flag untouched; a response overwrites the flag with
the non-404-ness of its status, continues on non-200 and breaks on
200. -/
def verifyLoop : List (Option VerifResponse) → Bool → VerifLoopResult
  | [], pte => .exhausted pte
  | none :: rest, pte => verifyLoop rest pte
  | some r :: rest, _ =>
    if r.status = 200 then .found r
    else verifyLoop rest (r.status != 404)

/-- Value of the possible_temp_error flag after the loop processes the
whole candidate list without breaking: the non-404-ness of the last
candidate that returned an HTTP response, or the initial flag if every
candidate raised. -/
def trailing_transient_flag : List (Option VerifResponse) → Bool → Bool
  | [], pte => pte
  | none :: rest, pte => trailing_transient_flag rest pte
  | some r :: rest, _ => trailing_transient_flag rest (r.status != 404)

/-- Return a validated domain for this address, and an x-name if one is
defined in ripple.txt. Mirrors `get_domain` of src/id_api.py:
`Except.error ()` is an exception escaping the function, `Except.ok
none` is the Python `None` and `Except.ok (some (d, x))` the tuple
return. -/
def get_domain (env : DomainEnv) (address : String) :
    Except Unit (Option (String × String)) :=
  match env.settings with
  | .error e => .error e
  | .ok resp =>
    if resp.status ≠ 200 then .ok none
    else
      match resp.body with
      | .error e => .error e
      | .ok b =>
        if ¬ b.success then .ok none
        else
          match b.domain with
          | none => .ok (some ("", ""))
          | some d =>
            if d = "" then .ok (some ("", ""))
            else
              match verifyLoop env.candidates false with
              | .exhausted pte => if pte then .ok none else .ok (some ("", ""))
              | .found r =>
                if address ∈ r.accounts then .ok (some (d, r.xname.getD ""))
                else .ok (some ("", ""))

/-- Nickname-directory HTTP response: a status code and the result of
parsing the JSON body into the optional username field. -/
structure NickResponse where
  status : Nat
  body : Except Unit (Option String)

/-- Oracle environment for one `get_nickname` call. -/
structure NickEnv where
  resp : Except Unit NickResponse

/-- Check if there is a nickname associated with this address. Mirrors
`get_nickname` of src/id_api.py. -/
def get_nickname (env : NickEnv) (address : String) :
    Except Unit (Option String) :=
  match env.resp with
  | .error e => .error e
  | .ok r =>
    if r.status ≠ 200 then .ok none
    else
      match r.body with
      | .error e => .error e
      | .ok data =>
        let nickname := data.getD ""
        .ok (some (if nickname ≠ "" then "~" ++ nickname else ""))

/-- Python value returned by a resolver on success: a bare string or a
tuple of strings. -/
inductive RVal
  | str (s : String)
  | tup (vs : List String)
deriving DecidableEq

/-- Mirrors `tuplify`: a tuple is kept, anything else is wrapped into a
one-element tuple. -/
def tuplify : RVal → List String
  | .tup vs => vs
  | .str s => [s]

/-- Observable behaviour of one run of a `cachify`-wrapped resolver:
whether an exception escaped the greenlet, whether the wrapped resolver
was invoked, which cache keys were read, the writes made to the shared
result dict, and the `setex` calls made to the cache as
(field, ttl, value) records. -/
structure CachifyOut where
  raised : Bool
  invoked : Bool
  cacheReads : List String
  channelWrites : List (String × String)
  cacheWrites : List (String × Nat × String)
deriving DecidableEq

/-- Cached values found for the requested fields, as built by the cache
check loop of `cachify` (cache keys are `address:field`). -/
def cached_result (key : List String) (cache : List (String × String))
    (address : String) : List (String × String) :=
  key.filterMap (fun k => (mapGet cache (address ++ ":" ++ k)).map (fun v => (k, v)))

/-- One run of the wrapper produced by `cachify` in src/id_api.py, for a
given cache snapshot and a given outcome of the wrapped resolver call.
If any requested field is cached, the cached values are written to the
shared dict and the resolver is not invoked; otherwise the resolver
runs: an escaping exception or a `None` result writes nothing, and a
value result writes each field of `zip key (tuplify result)` to both
the shared dict and the cache with the TTL. -/
def cachify (key : List String) (cache : List (String × String)) (address : String)
    (funcResult : Except Unit (Option RVal)) : CachifyOut :=
  if cached_result key cache address ≠ [] then
    { raised := false, invoked := false, cacheReads := key,
      channelWrites := cached_result key cache address, cacheWrites := [] }
  else
    match funcResult with
    | .error _ =>
      { raised := true, invoked := true, cacheReads := key,
        channelWrites := [], cacheWrites := [] }
    | .ok none =>
      { raised := false, invoked := true, cacheReads := key,
        channelWrites := [], cacheWrites := [] }
    | .ok (some v) =>
      { raised := false, invoked := true, cacheReads := key,
        channelWrites := (key.zip (tuplify v)),
        cacheWrites := (key.zip (tuplify v)).map (fun p => (p.1, CACHE_TIMEOUT, p.2)) }

/-- Resolver outcome of `get_domain` as the Python value seen by
`cachify`: the pair becomes a two-element tuple. -/
def domain_resolver_result (env : DomainEnv) (address : String) :
    Except Unit (Option RVal) :=
  (get_domain env address).map (fun o => o.map (fun p => RVal.tup [p.1, p.2]))

/-- Resolver outcome of `get_nickname` as the Python value seen by
`cachify`: a bare string. -/
def nickname_resolver_result (env : NickEnv) (address : String) :
    Except Unit (Option RVal) :=
  (get_nickname env address).map (fun o => o.map RVal.str)

/-- Upstream world for one `get_any_name` call: the oracle environments
of both resolvers, and the abstract completion time of each spawned
greenlet, used to model the `gevent.joinall` deadline (a task finishing
after the deadline has not written to the shared dict when the merge
runs). -/
structure World where
  domEnv : DomainEnv
  nickEnv : NickEnv
  domTime : Nat
  nickTime : Nat

/-- Run of the domain greenlet: `cachify(get_domain, result, 'domain')`
applied to the address. -/
def domTask (w : World) (cache : List (String × String)) (address : String) :
    CachifyOut :=
  cachify ["domain"] cache address (domain_resolver_result w.domEnv address)

/-- Run of the nickname greenlet:
`cachify(get_nickname, result, 'nickname')` applied to the address. -/
def nickTask (w : World) (cache : List (String × String)) (address : String) :
    CachifyOut :=
  cachify ["nickname"] cache address (nickname_resolver_result w.nickEnv address)

/-- Merge loop of `get_any_name`: return the first present non-empty
value among the given keys, else the empty string. -/
def pick_best_loop (keys : List String) (m : List (String × String)) : String :=
  match keys with
  | [] => ""
  | k :: ks =>
    match mapGet m k with
    | some v => if v ≠ "" then v else pick_best_loop ks m
    | none => pick_best_loop ks m

/-- Result merger of `get_any_name`: priority order name, nickname,
domain. -/
def pick_best (m : List (String × String)) : String :=
  pick_best_loop ["name", "nickname", "domain"] m

/-- Observable behaviour of one `resolve` call: the returned string, the
shared result dict as seen by the merge, the cache after the greenlets
finish, the cache keys read, the `setex` calls made, whether each
resolver was invoked, and how long the `joinall` wait lasted. -/
structure ResolveOut where
  result : String
  channel : List (String × String)
  cache : List (String × String)
  cacheReads : List String
  cacheWrites : List (String × Nat × String)
  invokedDomain : Bool
  invokedNickname : Bool
  waitTime : Nat
deriving DecidableEq

/-- Apply the `setex` calls of one task to the cache: keys are
`address:field`. -/
def applyCacheWrites (cache : List (String × String)) (address : String)
    (ws : List (String × Nat × String)) : List (String × String) :=
  ws.foldl (fun acc wr => mapSet acc (address ++ ":" ++ wr.1) wr.2.2) cache

/-- Check all known data sources, return the best one available.
Mirrors `get_any_name` of src/id_api.py. A locally known address
returns immediately with no cache or network interaction. Otherwise
both wrapped resolvers run as greenlets against the shared dict; the
merge sees the writes of a task exactly when its completion time is
within the timeout (`joinall` abandons later writes), while cache
writes land regardless because greenlets keep running in the
background; the wait lasts until every task is done or the timeout
elapses, whichever is first. -/
def get_any_name (w : World) (cache : List (String × String)) (address : String)
    (timeout : Nat) : ResolveOut :=
  match mapGet ADDRESS_DB address with
  | some name =>
    { result := name, channel := [], cache := cache, cacheReads := [],
      cacheWrites := [], invokedDomain := false, invokedNickname := false,
      waitTime := 0 }
  | none =>
    let d := domTask w cache address
    let n := nickTask w cache address
    let channel :=
      applyWrites
        (applyWrites [] (if w.domTime ≤ timeout then d.channelWrites else []))
        (if w.nickTime ≤ timeout then n.channelWrites else [])
    { result := pick_best channel,
      channel := channel,
      cache := applyCacheWrites (applyCacheWrites cache address d.cacheWrites)
        address n.cacheWrites,
      cacheReads := d.cacheReads ++ n.cacheReads,
      cacheWrites := d.cacheWrites ++ n.cacheWrites,
      invokedDomain := d.invoked,
      invokedNickname := n.invoked,
      waitTime := min timeout (max w.domTime w.nickTime) }

/-- Decidable equality of `Except` results, used to evaluate concrete
resolver outcomes. -/
instance {ε α : Type} [DecidableEq ε] [DecidableEq α] : DecidableEq (Except ε α) :=
  fun a b =>
    match a, b with
    | .error e, .error f =>
      if h : e = f then .isTrue (by rw [h])
      else .isFalse (fun hh => h (Except.error.inj hh))
    | .ok x, .ok y =>
      if h : x = y then .isTrue (by rw [h])
      else .isFalse (fun hh => h (Except.ok.inj hh))
    | .error _, .ok _ => .isFalse (fun hh => Except.noConfusion hh)
    | .ok _, .error _ => .isFalse (fun hh => Except.noConfusion hh)

/-- Verification document of the concrete world for claim C1: it lists
the queried address and carries an x-name. -/
def c1Doc : VerifResponse :=
  { status := 200, accounts := ["rXaddr1"], xname := some "Example Name" }

/-- Concrete world for claim C1: the domain source yields a validated
domain together with an x-name, and the nickname source yields the
username alice; both greenlets finish within the timeout. -/
def c1World : World :=
  { domEnv :=
      { settings := .ok { status := 200, body := .ok { success := true, domain := some "example.com" } },
        candidates := [some c1Doc] },
    nickEnv := { resp := .ok { status := 200, body := .ok (some "alice") } },
    domTime := 1, nickTime := 1 }

/-- Domain environment for claim C4: the first candidate URL answers
500, the second answers 404. -/
def c4Env : DomainEnv :=
  { settings := .ok { status := 200, body := .ok { success := true, domain := some "example.com" } },
    candidates := [some { status := 500, accounts := [], xname := none },
                   some { status := 404, accounts := [], xname := none }] }

/-- Candidate list for the C4 witness: a 503 response followed by a
connection error. -/
def c4wCands : List (Option VerifResponse) :=
  [some { status := 503, accounts := [], xname := none }, none]

/-- Inert world for the C5 witness: both sources would raise, so any
interaction with them would be visible. -/
def c5World : World :=
  { domEnv := { settings := .error (), candidates := [] },
    nickEnv := { resp := .error () }, domTime := 0, nickTime := 0 }

/-- World for the C6 witness: both upstream requests raise. -/
def c6World : World :=
  { domEnv := { settings := .error (), candidates := [] },
    nickEnv := { resp := .error () }, domTime := 1, nickTime := 1 }

/-- Verification document for the C8 witness: it does not list the
queried address. -/
def c8Doc : VerifResponse := { status := 200, accounts := ["rOther"], xname := none }

/-- World for the C9 witness: both greenlets outlast the timeout. -/
def c9World : World :=
  { domEnv := { settings := .error (), candidates := [] },
    nickEnv := { resp := .error () }, domTime := 5, nickTime := 7 }

/-- Emptiness of the cached-result dict is exactly a cache miss on every
requested field. -/
theorem cached_result_eq_nil_iff (key : List String) (cache : List (String × String))
    (address : String) :
    cached_result key cache address = [] ↔
      ∀ k ∈ key, mapGet cache (address ++ ":" ++ k) = none := by
  induction key with
  | nil => simp [cached_result]
  | cons k ks ih =>
    simp only [cached_result, List.filterMap_cons] at *
    cases h : mapGet cache (address ++ ":" ++ k) with
    | none => simp [h, ih]
    | some v => simp [h]

/-- When no candidate answers 200, the loop exhausts the list and the
final flag is computed by `trailing_transient_flag`. -/
theorem verifyLoop_no200 (cands : List (Option VerifResponse)) (pte : Bool)
    (h : ∀ r ∈ cands.filterMap id, r.status ≠ 200) :
    verifyLoop cands pte = .exhausted (trailing_transient_flag cands pte) := by
  induction cands generalizing pte with
  | nil => rfl
  | cons c rest ih =>
    cases c with
    | none =>
      simp only [List.filterMap_cons] at h
      exact ih pte h
    | some r =>
      simp only [List.filterMap_cons, id] at h
      have hr : r.status ≠ 200 := h r (List.mem_cons_self _ _)
      simp only [verifyLoop, trailing_transient_flag, if_neg hr]
      exact ih _ (fun x hx => h x (List.mem_cons_of_mem _ hx))

/-- Writes that never touch a query key leave its lookup unchanged. -/
theorem mapGet_applyWrites (m : List (String × String)) (ws : List (String × String))
    (q : String) (h : ∀ p ∈ ws, p.1 ≠ q) :
    mapGet (applyWrites m ws) q = mapGet m q := by
  induction ws generalizing m with
  | nil => rfl
  | cons p rest ih =>
    have step : applyWrites m (p :: rest) = applyWrites (mapSet m p.1 p.2) rest := rfl
    rw [step, ih _ (fun x hx => h x (List.mem_cons_of_mem _ hx))]
    simp [mapSet, mapGet, h p (List.mem_cons_self _ _)]

/-- Every write of a wrapped resolver to the shared result dict is keyed
by one of its registered fields. -/
theorem cachify_channelWrites_mem (key : List String) (cache : List (String × String))
    (address : String) (fr : Except Unit (Option RVal)) :
    ∀ p ∈ (cachify key cache address fr).channelWrites, p.1 ∈ key := by
  intro p hp
  by_cases hc : cached_result key cache address = []
  · rcases fr with e | o
    · simp [cachify, hc] at hp
    · rcases o with _ | v
      · simp [cachify, hc] at hp
      · simp only [cachify, hc, ne_eq, not_true_eq_false, if_neg, ite_false] at hp
        obtain ⟨a, b⟩ := p
        exact (List.of_mem_zip hp).1
  · simp only [cachify, if_pos hc] at hp
    obtain ⟨k, hk, hf⟩ := List.mem_filterMap.mp hp
    cases hg : mapGet cache (address ++ ":" ++ k) with
    | none => rw [hg] at hf; simp at hf
    | some v =>
      rw [hg] at hf
      simp at hf
      rw [← hf]
      exact hk

/-- Every `setex` call of a wrapped resolver is keyed by one of its
registered fields. -/
theorem cachify_cacheWrites_mem (key : List String) (cache : List (String × String))
    (address : String) (fr : Except Unit (Option RVal)) :
    ∀ e ∈ (cachify key cache address fr).cacheWrites, e.1 ∈ key := by
  intro e he
  by_cases hc : cached_result key cache address = []
  · rcases fr with x | o
    · simp [cachify, hc] at he
    · rcases o with _ | v
      · simp [cachify, hc] at he
      · simp only [cachify, hc, ne_eq, not_true_eq_false, if_neg, ite_false] at he
        obtain ⟨p, hp, hpe⟩ := List.mem_map.mp he
        obtain ⟨a, b⟩ := p
        rw [← hpe]
        exact (List.of_mem_zip hp).1
  · simp [cachify, if_pos hc] at he

/-- Merging an empty result dict gives the empty string. -/
theorem pick_best_nil : pick_best [] = "" := rfl

/-- C1: the claim says that whenever the domain source yields an
alternate name alongside a nickname and a domain, the end-to-end result
of resolve equals that alternate name. The code disagrees: in the world
c1World the domain source yields the x-name Example Name next to the
domain, the nickname source yields alice, and `get_any_name` returns
the nickname, because the domain resolver is registered under the
single field domain and the x-name is discarded by the zip. -/
theorem C1_xname_discarded_end_to_end :
    (get_any_name c1World [] "rXaddr1" 2).result = "~alice" ∧
    "~alice" ≠ "Example Name" := by decide

/-- C2: when every requested field misses the cache, an Unknown outcome
(the resolver returning None) writes nothing to the shared result dict
and nothing to the cache, while a Values outcome writes every field of
`zip key (tuplify v)` to both, each cache write carrying the TTL
CACHE_TIMEOUT, empty strings included. -/
theorem C2_unknown_never_cached_values_always_cached
    (key : List String) (cache : List (String × String)) (address : String) (v : RVal)
    (hmiss : ∀ k ∈ key, mapGet cache (address ++ ":" ++ k) = none) :
    (cachify key cache address (.ok none)).channelWrites = [] ∧
    (cachify key cache address (.ok none)).cacheWrites = [] ∧
    (cachify key cache address (.ok (some v))).channelWrites = key.zip (tuplify v) ∧
    (cachify key cache address (.ok (some v))).cacheWrites
      = (key.zip (tuplify v)).map (fun p => (p.1, CACHE_TIMEOUT, p.2)) := by
  have hnil : cached_result key cache address = [] :=
    (cached_result_eq_nil_iff key cache address).mpr hmiss
  simp [cachify, hnil]

/-- C2 witness: with field domain, an empty cache and the value tuple
("", "x"), the Unknown outcome writes nothing and the Values outcome
writes the empty string to dict and cache with the TTL. -/
theorem C2_witness :
    (cachify ["domain"] [] "rQ" (.ok none)).channelWrites = [] ∧
    (cachify ["domain"] [] "rQ" (.ok none)).cacheWrites = [] ∧
    (cachify ["domain"] [] "rQ" (.ok (some (RVal.tup ["", "x"])))).channelWrites
      = (["domain"] : List String).zip (tuplify (RVal.tup ["", "x"])) ∧
    (cachify ["domain"] [] "rQ" (.ok (some (RVal.tup ["", "x"])))).cacheWrites
      = ((["domain"] : List String).zip (tuplify (RVal.tup ["", "x"]))).map
          (fun p => (p.1, CACHE_TIMEOUT, p.2)) :=
  C2_unknown_never_cached_values_always_cached ["domain"] [] "rQ"
    (RVal.tup ["", "x"]) (by decide)

/-- C3 counterexample: with requested fields domain and name, a cache
holding only the domain entry, the field name misses the cache and yet
the wrapper does not invoke the resolver, contradicting the claim that
it invokes the resolver whenever at least one requested field misses. -/
theorem C3_counterexample :
    (cachify ["domain", "name"] [("r:domain", "d")] "r" (.ok none)).invoked = false ∧
    mapGet [("r:domain", "d")] ("r" ++ ":" ++ "name") = none := by decide

/-- C3 amended: the wrapper invokes the resolver exactly when every
requested field misses the cache; as soon as at least one field hits,
it writes only the cached hit fields to the shared result dict,
performs no cache write, and returns without invoking the resolver. -/
theorem C3_any_hit_short_circuits (key : List String) (cache : List (String × String))
    (address : String) (fr : Except Unit (Option RVal)) :
    ((cachify key cache address fr).invoked
      = key.all (fun k => (mapGet cache (address ++ ":" ++ k)).isNone)) ∧
    ((cachify key cache address fr).invoked = false →
      (cachify key cache address fr).channelWrites = cached_result key cache address ∧
      (cachify key cache address fr).cacheWrites = []) := by
  by_cases hc : cached_result key cache address = []
  · have hall : key.all (fun k => (mapGet cache (address ++ ":" ++ k)).isNone) = true := by
      rw [List.all_eq_true]
      intro k hk
      have h := (cached_result_eq_nil_iff key cache address).mp hc k hk
      simp [h]
    rcases fr with e | o
    · simp [cachify, hc, hall]
    · rcases o with _ | v <;> simp [cachify, hc, hall]
  · have hall : key.all (fun k => (mapGet cache (address ++ ":" ++ k)).isNone) = false := by
      rcases hb : key.all (fun k => (mapGet cache (address ++ ":" ++ k)).isNone) with _ | _
      · rfl
      · exfalso
        apply hc
        apply (cached_result_eq_nil_iff key cache address).mpr
        intro k hk
        have h := List.all_eq_true.mp hb k hk
        simpa [Option.isNone_iff_eq_none] using h
    simp [cachify, hc, hall]

/-- C3 witness: a partial hit (domain cached, name not) leaves the
resolver uninvoked, writes the hit to the shared dict and writes
nothing to the cache. -/
theorem C3_witness :
    (cachify ["domain", "name"] [("r:domain", "d")] "r" (.ok none)).invoked = false ∧
    (cachify ["domain", "name"] [("r:domain", "d")] "r" (.ok none)).channelWrites
      = [("domain", "d")] ∧
    (cachify ["domain", "name"] [("r:domain", "d")] "r" (.ok none)).cacheWrites = [] := by
  have h := C3_any_hit_short_circuits ["domain", "name"] [("r:domain", "d")] "r" (.ok none)
  refine ⟨by decide, ?_, (h.2 (by decide)).2⟩
  have h2 := (h.2 (by decide)).1
  simpa using h2

/-- C4 counterexample: a 500 on the first candidate followed by a 404 on
the second yields the definitive negative pair of empty strings, not
Unknown, contradicting the claim that any non-404 failure before
exhausting all candidates yields Unknown. -/
theorem C4_counterexample :
    get_domain c4Env "rAddr" = .ok (some ("", "")) ∧
    get_domain c4Env "rAddr" ≠ .ok none := by decide

/-- C4 amended: when no candidate answers 200, the outcome is decided by
the last candidate that returned an HTTP response, because the
possible_temp_error flag is overwritten on every response: the result
is Unknown exactly when that last status is not 404; 404 from every
candidate, a non-404 failure followed by a trailing 404, or every
candidate raising a connection error, all yield the definitive
negative. -/
theorem C4_last_response_decides (address d : String)
    (cands : List (Option VerifResponse))
    (hd : d ≠ "")
    (hno200 : ∀ r ∈ cands.filterMap id, r.status ≠ 200) :
    get_domain
      { settings := .ok { status := 200, body := .ok { success := true, domain := some d } },
        candidates := cands } address
      = (if trailing_transient_flag cands false then .ok none
         else .ok (some ("", ""))) := by
  have hv := verifyLoop_no200 cands false hno200
  simp [get_domain, hd, hv]

/-- C4 witness: a 503 followed by a connection error leaves the flag
true, so the outcome is Unknown. -/
theorem C4_witness :
    get_domain
      { settings := .ok { status := 200, body := .ok { success := true, domain := some "example.org" } },
        candidates := c4wCands } "rW"
      = (if trailing_transient_flag c4wCands false then .ok none
         else .ok (some ("", ""))) :=
  C4_last_response_decides "rW" "example.org" c4wCands (by decide) (by decide)

/-- C5: for an address present in the local override table, resolve
returns the mapped name with the cache unchanged, no cache reads, no
cache writes, no resolver invocations and no wait. -/
theorem C5_override_bypasses_everything (w : World) (cache : List (String × String))
    (address name : String) (timeout : Nat)
    (h : mapGet ADDRESS_DB address = some name) :
    get_any_name w cache address timeout
      = { result := name, channel := [], cache := cache, cacheReads := [],
          cacheWrites := [], invokedDomain := false, invokedNickname := false,
          waitTime := 0 } := by
  simp [get_any_name, h]

/-- C5 witness: the Bitstamp address resolves from the table alone, with
the cache left untouched. -/
theorem C5_witness :
    get_any_name c5World [("x", "y")] "rvYAfWj5gh67oV6fW32ZzP3Aw4Eubs59B" 5
      = { result := "Bitstamp", channel := [], cache := [("x", "y")],
          cacheReads := [], cacheWrites := [], invokedDomain := false,
          invokedNickname := false, waitTime := 0 } :=
  C5_override_bypasses_everything c5World [("x", "y")]
    "rvYAfWj5gh67oV6fW32ZzP3Aw4Eubs59B" "Bitstamp" 5 (by decide)

/-- C6 counterexample: when the account-settings request raises, the
exception escapes `get_domain` instead of being downgraded to the
Unknown outcome, contradicting the claim that every resolver-internal
error is caught inside the resolver layer. -/
theorem C6_counterexample :
    get_domain { settings := .error (), candidates := [] } "rE" = .error () ∧
    get_domain { settings := .error (), candidates := [] } "rE" ≠ .ok none := by decide

/-- C6 amended: resolver exceptions escape the resolver itself, but the
greenlet layer confines them: a raising task performs no cache write
and no result-dict write, and resolve still returns a plain string, the
empty string when both resolvers raise against a cold cache; it never
raises to its caller. -/
theorem C6_exception_escapes_but_resolve_returns (w : World)
    (cache : List (String × String)) (address : String) (timeout : Nat)
    (hdb : mapGet ADDRESS_DB address = none)
    (hd : domain_resolver_result w.domEnv address = .error ())
    (hn : nickname_resolver_result w.nickEnv address = .error ())
    (hmd : mapGet cache (address ++ ":" ++ "domain") = none)
    (hmn : mapGet cache (address ++ ":" ++ "nickname") = none) :
    (get_any_name w cache address timeout).result = "" ∧
    (get_any_name w cache address timeout).channel = [] ∧
    (get_any_name w cache address timeout).cache = cache ∧
    (get_any_name w cache address timeout).cacheWrites = [] := by
  have hdm : cached_result ["domain"] cache address = [] := by
    apply (cached_result_eq_nil_iff _ _ _).mpr
    intro k hk
    simp only [List.mem_singleton] at hk
    subst hk
    exact hmd
  have hnm : cached_result ["nickname"] cache address = [] := by
    apply (cached_result_eq_nil_iff _ _ _).mpr
    intro k hk
    simp only [List.mem_singleton] at hk
    subst hk
    exact hmn
  have hdt : domTask w cache address
      = { raised := true, invoked := true, cacheReads := ["domain"],
          channelWrites := [], cacheWrites := [] } := by
    simp [domTask, cachify, hdm, hd]
  have hnt : nickTask w cache address
      = { raised := true, invoked := true, cacheReads := ["nickname"],
          channelWrites := [], cacheWrites := [] } := by
    simp [nickTask, cachify, hnm, hn]
  simp [get_any_name, hdb, hdt, hnt, applyWrites, applyCacheWrites, pick_best_nil]

/-- C6 witness: with both upstream requests raising and an empty cache,
resolve returns the empty string and leaves the cache empty. -/
theorem C6_witness :
    (get_any_name c6World [] "rE" 2).result = "" ∧
    (get_any_name c6World [] "rE" 2).channel = [] ∧
    (get_any_name c6World [] "rE" 2).cache = [] ∧
    (get_any_name c6World [] "rE" 2).cacheWrites = [] :=
  C6_exception_escapes_but_resolve_returns c6World [] "rE" 2
    (by decide) rfl rfl rfl rfl

/-- C7: the nickname resolver returns the username prefixed by the tilde
marker on a 200 response with a non-empty username, the definitive
negative empty string on a 200 response with an empty or absent
username, and Unknown on any non-200 status. -/
theorem C7_nickname_cases (st : Nat) (u address : String)
    (body : Except Unit (Option String)) (hu : u ≠ "") (hst : st ≠ 200) :
    get_nickname { resp := .ok { status := 200, body := .ok (some u) } } address
      = .ok (some ("~" ++ u)) ∧
    get_nickname { resp := .ok { status := 200, body := .ok (some "") } } address
      = .ok (some "") ∧
    get_nickname { resp := .ok { status := 200, body := .ok none } } address
      = .ok (some "") ∧
    get_nickname { resp := .ok { status := st, body := body } } address
      = .ok none := by
  refine ⟨?_, by simp [get_nickname], by simp [get_nickname], ?_⟩
  · simp [get_nickname, hu]
  · simp [get_nickname, hst]

/-- C7 witness: username alice yields the marked nickname, empty or
absent usernames yield the empty string, and a 404 yields Unknown. -/
theorem C7_witness :
    get_nickname { resp := .ok { status := 200, body := .ok (some "alice") } } "X1"
      = .ok (some ("~" ++ "alice")) ∧
    get_nickname { resp := .ok { status := 200, body := .ok (some "") } } "X1"
      = .ok (some "") ∧
    get_nickname { resp := .ok { status := 200, body := .ok none } } "X1"
      = .ok (some "") ∧
    get_nickname { resp := .ok { status := 404, body := .ok none } } "X1"
      = .ok none :=
  C7_nickname_cases 404 "alice" "X1" (.ok none) (by decide) (by decide)

/-- C8: a fetched verification document that does not list the queried
address yields the definitive negative pair of empty strings, and an
account with no configured domain yields the same definitive negative;
neither is Unknown. -/
theorem C8_unlisted_or_no_domain_definitive (address d : String)
    (cands cands2 : List (Option VerifResponse)) (r : VerifResponse)
    (hd : d ≠ "") (hfound : verifyLoop cands false = .found r)
    (hnl : address ∉ r.accounts) :
    get_domain
      { settings := .ok { status := 200, body := .ok { success := true, domain := some d } },
        candidates := cands } address = .ok (some ("", "")) ∧
    get_domain
      { settings := .ok { status := 200, body := .ok { success := true, domain := none } },
        candidates := cands2 } address = .ok (some ("", "")) := by
  constructor
  · simp [get_domain, hd, hfound, hnl]
  · simp [get_domain]

/-- C8 witness: a document listing only another account, and a settings
response with no domain, both produce the definitive negative. -/
theorem C8_witness :
    get_domain
      { settings := .ok { status := 200, body := .ok { success := true, domain := some "example.net" } },
        candidates := [some c8Doc] } "rMe" = .ok (some ("", "")) ∧
    get_domain
      { settings := .ok { status := 200, body := .ok { success := true, domain := none } },
        candidates := [] } "rMe" = .ok (some ("", "")) :=
  C8_unlisted_or_no_domain_definitive "rMe" "example.net" [some c8Doc] [] c8Doc
    (by decide) (by decide) (by decide)

/-- C9: when both greenlets outlast the timeout on a non-override
address, resolve returns the empty string and the joinall wait lasts at
most the timeout. -/
theorem C9_timeout_returns_empty (w : World) (cache : List (String × String))
    (address : String) (timeout : Nat)
    (hdb : mapGet ADDRESS_DB address = none)
    (hdt : timeout < w.domTime) (hnt : timeout < w.nickTime) :
    (get_any_name w cache address timeout).result = "" ∧
    (get_any_name w cache address timeout).waitTime ≤ timeout := by
  have h1 : ¬ (w.domTime ≤ timeout) := not_le.mpr hdt
  have h2 : ¬ (w.nickTime ≤ timeout) := not_le.mpr hnt
  constructor
  · simp [get_any_name, hdb, h1, h2, applyWrites, pick_best_nil]
  · simp [get_any_name, hdb]

/-- C9 witness: with tasks of five and seven time units against a
timeout of two, resolve returns the empty string after a wait of at
most two. -/
theorem C9_witness :
    (get_any_name c9World [] "rT" 2).result = "" ∧
    (get_any_name c9World [] "rT" 2).waitTime ≤ 2 :=
  C9_timeout_returns_empty c9World [] "rT" 2 (by decide) (by decide) (by decide)

/-- C10: the resolve pipeline never writes the alternate-name field name
anywhere: the merged result dict has no name entry and every cache
write is keyed by another field, because the domain resolver is
registered under the single key domain and the zip drops the second
element of its result tuple. -/
theorem C10_name_field_never_written (w : World) (cache : List (String × String))
    (address : String) (timeout : Nat) :
    mapGet (get_any_name w cache address timeout).channel "name" = none ∧
    ((get_any_name w cache address timeout).cacheWrites.all
      (fun e => e.1 != "name")) = true := by
  cases hdb : mapGet ADDRESS_DB address with
  | some name =>
    have h1 : (get_any_name w cache address timeout).channel = [] := by
      simp [get_any_name, hdb]
    have h2 : (get_any_name w cache address timeout).cacheWrites = [] := by
      simp [get_any_name, hdb]
    rw [h1, h2]
    exact ⟨rfl, rfl⟩
  | none =>
    have hdc : ∀ p ∈ (if w.domTime ≤ timeout
        then (domTask w cache address).channelWrites else []), p.1 ≠ "name" := by
      intro p hp
      by_cases ht : w.domTime ≤ timeout
      · rw [if_pos ht] at hp
        have hmem := cachify_channelWrites_mem ["domain"] cache address
          (domain_resolver_result w.domEnv address) p (by simpa [domTask] using hp)
        simp only [List.mem_singleton] at hmem
        rw [hmem]
        decide
      · rw [if_neg ht] at hp
        simp at hp
    have hnc : ∀ p ∈ (if w.nickTime ≤ timeout
        then (nickTask w cache address).channelWrites else []), p.1 ≠ "name" := by
      intro p hp
      by_cases ht : w.nickTime ≤ timeout
      · rw [if_pos ht] at hp
        have hmem := cachify_channelWrites_mem ["nickname"] cache address
          (nickname_resolver_result w.nickEnv address) p (by simpa [nickTask] using hp)
        simp only [List.mem_singleton] at hmem
        rw [hmem]
        decide
      · rw [if_neg ht] at hp
        simp at hp
    have hch : (get_any_name w cache address timeout).channel
        = applyWrites
            (applyWrites []
              (if w.domTime ≤ timeout then (domTask w cache address).channelWrites else []))
            (if w.nickTime ≤ timeout then (nickTask w cache address).channelWrites else []) := by
      simp [get_any_name, hdb]
    have hcw : (get_any_name w cache address timeout).cacheWrites
        = (domTask w cache address).cacheWrites ++ (nickTask w cache address).cacheWrites := by
      simp [get_any_name, hdb]
    constructor
    · rw [hch, mapGet_applyWrites _ _ _ hnc, mapGet_applyWrites _ _ _ hdc]
      rfl
    · rw [hcw, List.all_eq_true]
      intro e he
      rcases List.mem_append.mp he with h1 | h1
      · have hmem := cachify_cacheWrites_mem ["domain"] cache address
          (domain_resolver_result w.domEnv address) e (by simpa [domTask] using h1)
        simp only [List.mem_singleton] at hmem
        simp [hmem]
      · have hmem := cachify_cacheWrites_mem ["nickname"] cache address
          (nickname_resolver_result w.nickEnv address) e (by simpa [nickTask] using h1)
        simp only [List.mem_singleton] at hmem
        simp [hmem]

end RippleId
